import Mathlib

/-!
Verification of the django-ca X.509 extension normalization/serialization
layer against its specification.  The production module
(`django_ca/extensions.py`) is embedded shallowly below; only its test suite
(`django_ca/tests/tests_extensions.py`) is available in the repository
snapshot, so the definitions are modelled from the specification, with every
behaviour that the test suite pins down (error messages, default critical
flags, ordering of serialized values) reproduced exactly as the tests assert
it.

String processing is implemented over `List Char` (code-point lists) so that
all definitions reduce inside the kernel; `String` is used at the API
boundary.
-/

namespace DjangoCA

/-! ### Python-style string primitives -/

/-- Split a character list at every occurrence of `sep` (Python `str.split`). -/
def splitCh (sep : Char) : List Char → List (List Char)
  | [] => [[]]
  | c :: cs =>
    let r := splitCh sep cs
    if c == sep then [] :: r
    else
      match r with
      | [] => [[c]]
      | g :: gs => (c :: g) :: gs

/-- Split a character list at the first occurrence of `sep` only
(Python `str.split(sep, 1)`); returns the head part and, when the separator
occurs, the remainder. -/
def splitOnceCh (sep : Char) : List Char → List Char × Option (List Char)
  | [] => ([], none)
  | c :: cs =>
    if c == sep then ([], some cs)
    else
      let r := splitOnceCh sep cs
      (c :: r.1, r.2)

/-- Whitespace test used by Python `str.strip`. -/
def isSpace (c : Char) : Bool := c == ' ' || c == '\t' || c == '\n' || c == '\r'

/-- Drop leading whitespace. -/
def trimL : List Char → List Char
  | [] => []
  | c :: rest => if isSpace c then trimL rest else c :: rest

/-- Python `str.strip`: drop leading and trailing whitespace. -/
def trimCh (cs : List Char) : List Char := trimL ((trimL cs.reverse).reverse)

/-- ASCII lower-casing of one character (Python `str.lower` on the inputs
the grammar accepts). -/
def lowerCh (c : Char) : Char :=
  if 'A' ≤ c && c ≤ 'Z' then Char.ofNat (c.toNat + 32) else c

/-- Parse a non-empty all-digit character list as a natural number
(Python `int(...)` on the strings the grammar accepts). -/
def parseNatCh : List Char → Option Nat
  | [] => none
  | cs =>
    if cs.all (fun c => '0' ≤ c && c ≤ '9') then
      some (cs.foldl (fun n c => n * 10 + (c.toNat - 48)) 0)
    else none

/-- Python string `<`, comparing code points lexicographically. -/
def charsLt : List Char → List Char → Bool
  | [], [] => false
  | [], _ :: _ => true
  | _ :: _, [] => false
  | a :: as, b :: bs =>
    if a.toNat < b.toNat then true
    else if b.toNat < a.toNat then false
    else charsLt as bs

/-- Python string `<=`. -/
def pyStrLe (a b : String) : Bool := !(charsLt b.data a.data)

/-- Insert into a list sorted by `pyStrLe`. -/
def insertSortedStr (s : String) : List String → List String
  | [] => [s]
  | t :: ts => if pyStrLe s t then s :: t :: ts else t :: insertSortedStr s ts

/-- Python `sorted` on strings. -/
def sortStrs (l : List String) : List String := l.foldr insertSortedStr []

/-- Python `sep.join(l)`. -/
def joinWith (sep : String) : List String → String
  | [] => ""
  | [s] => s
  | s :: rest => s ++ sep ++ joinWith sep rest

/-! ### Errors

All construction/validation failures of the extension layer.  Python raises
`ValueError` subclasses with the messages reproduced below, `IndexError` for
out-of-range sequence access, and `NotImplementedError` for operations that a
kind does not support. -/

inductive Err where
  | valueError (msg : String)
  | indexError (msg : String)
  | notImplementedError
deriving DecidableEq, Repr

deriving instance DecidableEq for Except

/-- `true` exactly when a result failed with a `ValueError`. -/
def isValueErrorResult {α : Type} : Except Err α → Bool
  | .error (.valueError _) => true
  | _ => false

/-! ### Python list operations

Shared sequence operations of `ListExtension` and of
`PolicyInformation`'s qualifier list, with Python's index semantics
(negative indices count from the end) and Python's error classes and
messages. -/

/-- Python `l[i]` for a single (possibly negative) index. -/
def pyIndex {α : Type} (l : List α) (i : Int) : Except Err α :=
  let j : Int := if i < 0 then i + l.length else i
  if 0 ≤ j then
    match l.get? j.toNat with
    | some x => .ok x
    | none => .error (.indexError "list index out of range")
  else .error (.indexError "list index out of range")

/-- Python `l.pop()` / `l.pop(i)`: returns the removed element and the
remaining list. -/
def pyPop {α : Type} (l : List α) (i : Option Int) : Except Err (α × List α) :=
  match l with
  | [] => .error (.indexError "pop from empty list")
  | _ :: _ =>
    match i with
    | none =>
      match l.getLast? with
      | some x => .ok (x, l.dropLast)
      | none => .error (.indexError "pop from empty list")
    | some i =>
      let j : Int := if i < 0 then i + l.length else i
      if 0 ≤ j then
        match l.get? j.toNat with
        | some x => .ok (x, l.eraseIdx j.toNat)
        | none => .error (.indexError "pop index out of range")
      else .error (.indexError "pop index out of range")

/-- Python `l.remove(x)`: returns the list without the first occurrence. -/
def pyRemove {α : Type} [BEq α] (l : List α) (x : α) : Except Err (List α) :=
  if l.contains x then .ok (l.erase x)
  else .error (.valueError "list.remove(x): x not in list")

/-- Python slice read `l[i:j]` (never raises; indices are clamped). -/
def pySliceGet {α : Type} (l : List α) (i j : Int) : List α :=
  let n : Int := l.length
  let a := if i < 0 then max 0 (i + n) else min i n
  let b := if j < 0 then max 0 (j + n) else min j n
  (l.take b.toNat).drop a.toNat

/-! ### The critical flag -/

/-- The `critical` entry of a mapping-shaped input: absent, a proper boolean,
or some other value (whose rendering appears in the error message). -/
inductive CriticalField where
  | absent
  | boolean (b : Bool)
  | invalid (shown : String)
deriving DecidableEq

/-- Modelled from the spec: mapping form defaults a missing `critical` to the
kind's default; a present value must be exactly boolean, anything else fails
with the invalid-critical error (message as asserted by the test suite). -/
def resolveCritical (dflt : Bool) : CriticalField → Except Err Bool
  | .absent => .ok dflt
  | .boolean b => .ok b
  | .invalid shown => .error (.valueError (shown ++ ": Invalid critical value passed"))

/-- String-shaped input: an optional leading literal token `critical,`
marks the extension critical; the remainder is handed to the per-kind string
parser. -/
def stripCriticalTag (s : String) : Bool × String :=
  if "critical,".data.isPrefixOf s.data then (true, (s.data.drop 9).asString)
  else (false, s)

/-! ### Extension (base) -/

/-- Modelled from the spec: the base extension value type — a critical flag
plus an opaque payload (a bare string for the abstract base, as exercised by
`ExtensionTestCase`). -/
structure Extension where
  critical : Bool
  value : String
deriving DecidableEq

/-- Base-class string constructor: strip the `critical,` tag, keep the rest
verbatim as the value. -/
def extFromStr (s : String) : Extension :=
  let p := stripCriticalTag s
  ⟨p.1, p.2⟩

/-- Base-class mapping constructor; `critical` defaults to `false`. -/
def extFromDict (cf : CriticalField) (value : String) : Except Err Extension := do
  let c ← resolveCritical false cf
  .ok ⟨c, value⟩

/-- `serialize()` of the base kind: the `critical`/`value` mapping. -/
def extSerialize (e : Extension) : Bool × String := (e.critical, e.value)

/-! ### ListExtension -/

/-- Modelled from the spec: an extension whose payload is an ordered sequence
of normalized elements (elements are bare strings for the plain list kind, as
exercised by `ListExtensionTestCase`). -/
structure ListExtension where
  critical : Bool
  value : List String
deriving DecidableEq

/-- Mapping constructor of the plain list kind; `critical` defaults to
`false`. -/
def listExtFromDict (cf : CriticalField) (value : List String) :
    Except Err ListExtension := do
  let c ← resolveCritical false cf
  .ok ⟨c, value⟩

/-- `serialize()` of a list extension: the value sequence in stored order. -/
def listExtSerialize (e : ListExtension) : Bool × List String := (e.critical, e.value)

/-- `e[i]`. -/
def listExtGetitem (e : ListExtension) (i : Int) : Except Err String :=
  pyIndex e.value i

/-- `e.pop([i])`, returning the element and the mutated extension. -/
def listExtPop (e : ListExtension) (i : Option Int) :
    Except Err (String × ListExtension) :=
  (pyPop e.value i).map (fun p => (p.1, ⟨e.critical, p.2⟩))

/-- `e.remove(x)`, returning the mutated extension. -/
def listExtRemove (e : ListExtension) (x : String) : Except Err ListExtension :=
  (pyRemove e.value x).map (fun v => ⟨e.critical, v⟩)

/-! ### KnownValuesExtension

Modelled from the spec: a specialization of `ListExtension` restricted to a
fixed `KNOWN_VALUES` vocabulary per concrete subtype, compared and hashed as
an order-independent set.  The functions below are parameterized by the
subtype's vocabulary; `TLSFeature`, `KeyUsage` and `ExtendedKeyUsage` are its
instances. -/

/-- A known-values extension instance (of the subtype whose vocabulary is
passed to the operations below). -/
structure KnownValuesExtension where
  critical : Bool
  value : List String
deriving DecidableEq

/-- The offending tokens of an input: those outside the vocabulary, without
duplicates, sorted (the order in which the error message lists them). -/
def unknownValues (known toks : List String) : List String :=
  sortStrs ((toks.filter (fun t => !known.contains t)).dedup)

/-- Reject inputs containing tokens outside the vocabulary with the
unknown-value error, listing the offending tokens sorted. -/
def checkKnown (known toks : List String) : Except Err (List String) :=
  match unknownValues known toks with
  | [] => .ok toks
  | ds => .error (.valueError ("Unknown value(s): " ++ joinWith ", " ds))

/-- Bare-sequence constructor of a known-values extension. -/
def kvFromList (known : List String) (cf : CriticalField) (toks : List String) :
    Except Err KnownValuesExtension := do
  let toks ← checkKnown known toks
  let c ← resolveCritical false cf
  .ok ⟨c, toks⟩

/-- The `value` entry of a mapping-shaped input: a scalar string or a
sequence of tokens. -/
inductive StrOrList where
  | str (s : String)
  | list (l : List String)
deriving DecidableEq

/-- Mapping constructor: a scalar string value is promoted to a one-token
sequence. -/
def kvFromDict (known : List String) (cf : CriticalField) (v : StrOrList) :
    Except Err KnownValuesExtension :=
  kvFromList known cf (match v with | .str s => [s] | .list l => l)

/-- The token sequence denoted by the string grammar (after the `critical,`
tag is stripped): comma-separated tokens, the empty string denoting no
tokens. -/
def kvTokens (rest : String) : List String :=
  if rest = "" then [] else (splitCh ',' rest.data).map List.asString

/-- String constructor: optional leading `critical` token, then a
comma-separated token list. -/
def kvFromStr (known : List String) (s : String) : Except Err KnownValuesExtension := do
  let toks ← checkKnown known (kvTokens (stripCriticalTag s).2)
  .ok ⟨(stripCriticalTag s).1, toks⟩

/-- `serialize()` of a known-values extension: the stored value sequence. -/
def kvSerialize (e : KnownValuesExtension) : Bool × List String := (e.critical, e.value)

/-- Order-independent (set) comparison of two token lists. -/
def listSetEq (a b : List String) : Bool :=
  a.all (b.contains ·) && b.all (a.contains ·)

/-- Equality of two known-values instances of one subtype: same critical
flag and same set of values. -/
def kvEq (a b : KnownValuesExtension) : Bool :=
  a.critical == b.critical && listSetEq a.value b.value

/-- Modelled from the spec: the hash of a known-values instance is computed
over the set of values plus the critical flag.  The set is encoded
canonically by filtering the subtype's vocabulary, so the key — and hence the
hash — is independent of storage order. -/
def kvHashKey (known : List String) (e : KnownValuesExtension) :
    List String × Bool :=
  (known.filter (e.value.contains ·), e.critical)

/-- Element normalization of query arguments (`count`, membership): a token
outside the vocabulary fails with the singular unknown-value error asserted
by `TLSFeatureTestCase.test_count`. -/
def kvParseValue (known : List String) (t : String) : Except Err String :=
  if known.contains t then .ok t
  else .error (.valueError ("Unknown value: " ++ t))

/-- `e.count(t)`: the argument is normalized first, so an unknown token
fails rather than counting zero. -/
def kvCount (known : List String) (e : KnownValuesExtension) (t : String) :
    Except Err Nat :=
  (kvParseValue known t).map (fun c => e.value.count c)

/-- `KNOWN_VALUES` of `TLSFeature`. -/
def tlsFeatureKnown : List String := ["OCSPMustStaple", "MultipleCertStatusRequest"]

/-! ### KeyUsage -/

/-- `KNOWN_VALUES` of `KeyUsage`. -/
def keyUsageKnown : List String :=
  ["cRLSign", "dataEncipherment", "decipherOnly", "digitalSignature",
   "encipherOnly", "keyAgreement", "keyCertSign", "keyEncipherment",
   "nonRepudiation"]

/-- A `KeyUsage` extension instance. -/
structure KeyUsage where
  critical : Bool
  value : List String
deriving DecidableEq

/-- The fixed implied-value rule of `KeyUsage`: requesting `decipherOnly`
auto-implies `keyAgreement` (appended when missing, as
`KeyUsageTestCase.test_sanity_checks` asserts). -/
def kuImplied (v : List String) : List String :=
  if v.contains "decipherOnly" && !v.contains "keyAgreement" then
    v ++ ["keyAgreement"]
  else v

/-- `KeyUsage` string constructor. -/
def kuFromStr (s : String) : Except Err KeyUsage :=
  (kvFromStr keyUsageKnown s).map (fun e => ⟨e.critical, kuImplied e.value⟩)

/-- `KeyUsage` mapping constructor. -/
def kuFromDict (cf : CriticalField) (v : StrOrList) : Except Err KeyUsage :=
  (kvFromDict keyUsageKnown cf v).map (fun e => ⟨e.critical, kuImplied e.value⟩)

/-- `KeyUsage` bare-sequence constructor. -/
def kuFromList (cf : CriticalField) (toks : List String) : Except Err KeyUsage :=
  (kvFromList keyUsageKnown cf toks).map (fun e => ⟨e.critical, kuImplied e.value⟩)

/-- `serialize()` of `KeyUsage`. -/
def kuSerialize (e : KeyUsage) : Bool × List String := (e.critical, e.value)

/-! ### BasicConstraints

Grammar `"[critical,]CA:{TRUE|FALSE}[,pathlen={int|None}]"`, case-insensitive
keys and values, `:` or `=` separators, optional surrounding whitespace;
`pathlen` is only legal when CA is true. -/

/-- A `BasicConstraints` extension instance; its value is the `(ca, pathlen)`
pair. -/
structure BasicConstraints where
  critical : Bool
  ca : Bool
  pathlen : Option Nat
deriving DecidableEq

/-- Parse the `CA:{TRUE|FALSE}` fragment (case-insensitive, `:` or `=`,
optional whitespace).  The spec pins no message for a malformed CA fragment;
the tests never exercise it. -/
def parseCAPart (cs : List Char) : Except Err Bool :=
  match trimCh (cs.map lowerCh) with
  | 'c' :: 'a' :: rest =>
    match trimCh rest with
    | ':' :: v | '=' :: v =>
      let v := trimCh v
      if v == "true".data then .ok true
      else if v == "false".data then .ok false
      else .error (.valueError ("Could not parse CA: " ++ (trimCh cs).asString))
    | _ => .error (.valueError ("Could not parse CA: " ++ (trimCh cs).asString))
  | _ => .error (.valueError ("Could not parse CA: " ++ (trimCh cs).asString))

/-- Parse the `pathlen={int|None}` fragment; a malformed fragment fails with
the parse error naming the (stripped) offending fragment, exactly as
`BasicConstraintsTestCase.test_other` asserts. -/
def parsePathlenFrag (cs : List Char) : Except Err (Option Nat) :=
  let frag := trimCh cs
  let bad : Except Err (Option Nat) :=
    .error (.valueError ("Could not parse pathlen: " ++ frag.asString))
  let lt := frag.map lowerCh
  if "pathlen".data.isPrefixOf lt then
    match trimCh (lt.drop 7) with
    | ':' :: v | '=' :: v =>
      let v := trimCh v
      if v == "none".data then .ok none
      else
        match parseNatCh v with
        | some n => .ok (some n)
        | none => bad
    | _ => bad
  else bad

/-- The value denoted by the string grammar (after the `critical,` tag):
the CA fragment, optionally followed by one comma and the pathlen
fragment. -/
def bcCore (cs : List Char) : Except Err (Bool × Option Nat) :=
  match splitOnceCh ',' cs with
  | (caPart, none) => do
    let ca ← parseCAPart caPart
    .ok (ca, none)
  | (caPart, some frag) => do
    let ca ← parseCAPart caPart
    let pl ← parsePathlenFrag frag
    .ok (ca, pl)

/-- The consistency rule: `pathlen` must be `None` when `ca` is false
(message as asserted by `BasicConstraintsTestCase.test_consistency`). -/
def bcTestValue (ca : Bool) (pl : Option Nat) : Except Err Unit :=
  if pl.isSome && !ca then
    .error (.valueError "pathlen must be None when ca is False")
  else .ok ()

/-- `BasicConstraints` string constructor. -/
def bcFromStr (s : String) : Except Err BasicConstraints := do
  let v ← bcCore (stripCriticalTag s).2.data
  bcTestValue v.1 v.2
  .ok ⟨(stripCriticalTag s).1, v.1, v.2⟩

/-- `BasicConstraints` mapping constructor; the kind's `critical` defaults
to `true` (as `BasicConstraintsTestCase.test_dict` asserts).  The value is
validated before the critical flag is resolved, matching the constructor
order of the base class. -/
def bcFromDict (cf : CriticalField) (ca : Bool) (pl : Option Nat) :
    Except Err BasicConstraints := do
  bcTestValue ca pl
  let c ← resolveCritical true cf
  .ok ⟨c, ca, pl⟩

/-- `BasicConstraints` native-shape constructor (the native library already
guarantees the consistency invariant). -/
def bcFromExtension (c ca : Bool) (pl : Option Nat) : BasicConstraints :=
  ⟨c, ca, pl⟩

/-- `serialize()` of `BasicConstraints`. -/
def bcSerialize (e : BasicConstraints) : Bool × Bool × Option Nat :=
  (e.critical, e.ca, e.pathlen)

/-! ### OCSPNoCheck and PrecertPoison (valueless kinds) -/

/-- `OCSPNoCheck`: a valueless, critical-flag-only extension. -/
structure OCSPNoCheck where
  critical : Bool
deriving DecidableEq

/-- `OCSPNoCheck` mapping constructor; `critical` defaults to `false`. -/
def ocspFromDict (cf : CriticalField) : Except Err OCSPNoCheck :=
  (resolveCritical false cf).map (fun c => ⟨c⟩)

/-- `OCSPNoCheck` native-shape constructor. -/
def ocspFromExtension (c : Bool) : OCSPNoCheck := ⟨c⟩

/-- `OCSPNoCheck` has no string grammar. -/
def ocspFromStr (_ : String) : Except Err OCSPNoCheck := .error .notImplementedError

/-- `serialize()` of `OCSPNoCheck`. -/
def ocspSerialize (e : OCSPNoCheck) : Bool := e.critical

/-- `PrecertPoison`: a valueless extension that must always be critical. -/
structure PrecertPoison where
  critical : Bool
deriving DecidableEq

/-- The dedicated error raised when a `PrecertPoison` input is explicitly
marked non-critical. -/
def precertPoisonErr : Err :=
  .valueError "PrecertPoison must always be marked as critical"

/-- `PrecertPoison` mapping constructor; `critical` defaults to `true` and an
explicit `false` is rejected. -/
def ppFromDict (cf : CriticalField) : Except Err PrecertPoison := do
  let c ← resolveCritical true cf
  if c then .ok ⟨c⟩ else .error precertPoisonErr

/-- `PrecertPoison` native-shape constructor; a non-critical native extension
is rejected. -/
def ppFromExtension (c : Bool) : Except Err PrecertPoison :=
  if c then .ok ⟨c⟩ else .error precertPoisonErr

/-- `PrecertPoison` has no string grammar. -/
def ppFromStr (_ : String) : Except Err PrecertPoison := .error .notImplementedError

/-- `serialize()` of `PrecertPoison`. -/
def ppSerialize (e : PrecertPoison) : Bool := e.critical

/-! ### PolicyInformation and CertificatePolicies -/

/-- A notice reference of a user notice: organization plus notice numbers. -/
structure NoticeReference where
  organization : String
  notice_numbers : List Nat
deriving DecidableEq

/-- A normalized policy qualifier: plain text, or a structured user notice. -/
inductive PolicyQualifier where
  | text (s : String)
  | userNotice (explicit_text : Option String) (notice_ref : Option NoticeReference)
deriving DecidableEq

/-- The serialized (mapping) shape of a notice reference. -/
structure SerializedNoticeRef where
  organization : String
  notice_numbers : List Nat
deriving DecidableEq

/-- The serialized/mapping shape of a policy qualifier: a plain string, or a
mapping with optional `explicit_text` / `notice_reference` entries. -/
inductive SerializedQualifier where
  | str (s : String)
  | mapping (explicit_text : Option String)
      (notice_ref : Option SerializedNoticeRef)
deriving DecidableEq

/-- Normalize one qualifier input: a plain string is stored as text, a
mapping as a user notice. -/
def parseQualifier : SerializedQualifier → PolicyQualifier
  | .str s => .text s
  | .mapping et nr =>
    .userNotice et (nr.map (fun r => ⟨r.organization, r.notice_numbers⟩))

/-- Project a qualifier back to its serialized shape. -/
def serializeQualifier : PolicyQualifier → SerializedQualifier
  | .text s => .str s
  | .userNotice et nr =>
    .mapping et (nr.map (fun r => ⟨r.organization, r.notice_numbers⟩))

/-- A policy-information value object: an optional (canonical dotted) policy
identifier and an optional ordered qualifier list.  String and native OID
inputs both normalize to the dotted form. -/
structure PolicyInformation where
  policy_identifier : Option String
  policy_qualifiers : Option (List PolicyQualifier)
deriving DecidableEq

/-- The serialized/mapping shape of a policy information entry. -/
structure SerializedPolicyInformation where
  policy_identifier : Option String
  policy_qualifiers : Option (List SerializedQualifier)
deriving DecidableEq

/-- `PolicyInformation` mapping constructor. -/
def piFromDict (d : SerializedPolicyInformation) : PolicyInformation :=
  ⟨d.policy_identifier, d.policy_qualifiers.map (List.map parseQualifier)⟩

/-- `serialize()` of a policy information entry. -/
def piSerialize (pi : PolicyInformation) : SerializedPolicyInformation :=
  ⟨pi.policy_identifier, pi.policy_qualifiers.map (List.map serializeQualifier)⟩

/-- The qualifier list a `PolicyInformation` operates on (`None` counts as
empty). -/
def piQualifiers (pi : PolicyInformation) : List PolicyQualifier :=
  pi.policy_qualifiers.getD []

/-- An emptied qualifier list is stored as `None` (observable through
equality with a fresh instance, as `PolicyInformationTestCase.test_pop`,
`test_remove` and `test_clear` assert). -/
def qualsOrNone (l : List PolicyQualifier) : Option (List PolicyQualifier) :=
  if l.isEmpty then none else some l

/-- `pi[i]`; the element is returned in serialized form. -/
def piGetitem (pi : PolicyInformation) (i : Int) : Except Err SerializedQualifier :=
  (pyIndex (piQualifiers pi) i).map serializeQualifier

/-- `pi.pop([i])`, returning the removed (serialized) qualifier and the
mutated instance. -/
def piPop (pi : PolicyInformation) (i : Option Int) :
    Except Err (SerializedQualifier × PolicyInformation) :=
  (pyPop (piQualifiers pi) i).map
    (fun p => (serializeQualifier p.1, ⟨pi.policy_identifier, qualsOrNone p.2⟩))

/-- `pi.remove(q)`: the argument is normalized through the qualifier parser
first, then removed. -/
def piRemove (pi : PolicyInformation) (q : SerializedQualifier) :
    Except Err PolicyInformation :=
  (pyRemove (piQualifiers pi) (parseQualifier q)).map
    (fun l => ⟨pi.policy_identifier, qualsOrNone l⟩)

/-- `CertificatePolicies`: a list extension of `PolicyInformation`. -/
structure CertificatePolicies where
  critical : Bool
  value : List PolicyInformation
deriving DecidableEq

/-- `CertificatePolicies` mapping constructor; `critical` defaults to
`false`. -/
def cpFromDict (cf : CriticalField) (v : List SerializedPolicyInformation) :
    Except Err CertificatePolicies := do
  let c ← resolveCritical false cf
  .ok ⟨c, v.map piFromDict⟩

/-- `serialize()` of `CertificatePolicies`. -/
def cpSerialize (e : CertificatePolicies) : Bool × List SerializedPolicyInformation :=
  (e.critical, e.value.map piSerialize)

/-! ### AuthorityInformationAccess -/

/-- `AuthorityInformationAccess`: two independent ordered URI lists. -/
structure AuthorityInformationAccess where
  critical : Bool
  issuers : List String
  ocsp : List String
deriving DecidableEq

/-- `AuthorityInformationAccess` mapping constructor; missing keys default to
empty lists and `critical` defaults to `false`. -/
def aiaFromDict (cf : CriticalField) (issuers ocsp : Option (List String)) :
    Except Err AuthorityInformationAccess := do
  let c ← resolveCritical false cf
  .ok ⟨c, issuers.getD [], ocsp.getD []⟩

/-- `serialize()` of `AuthorityInformationAccess`. -/
def aiaSerialize (e : AuthorityInformationAccess) :
    Bool × List String × List String :=
  (e.critical, e.issuers, e.ocsp)

/-! ### PrecertificateSignedCertificateTimestamps

A read-only list extension: instances come only from a native certificate
extension; every mutating operation fails with `NotImplementedError`. -/

/-- One signed certificate timestamp entry (its serialized record). -/
structure SignedCertificateTimestamp where
  version : String
  log_id : String
  timestamp : String
  entry_type : String
deriving DecidableEq

/-- A `PrecertificateSignedCertificateTimestamps` extension instance. -/
structure PrecertificateSignedCertificateTimestamps where
  critical : Bool
  value : List SignedCertificateTimestamp
deriving DecidableEq

/-- Native-shape constructor — the only supported construction. -/
def sctFromExtension (c : Bool) (v : List SignedCertificateTimestamp) :
    PrecertificateSignedCertificateTimestamps := ⟨c, v⟩

/-- Construction from a bare list is unsupported. -/
def sctFromList (_ : List SignedCertificateTimestamp) :
    Except Err PrecertificateSignedCertificateTimestamps :=
  .error .notImplementedError

/-- `del e[i]` is unsupported. -/
def sctDelitem (_ : PrecertificateSignedCertificateTimestamps) (_ : Int) :
    Except Err PrecertificateSignedCertificateTimestamps :=
  .error .notImplementedError

/-- `e.extend(l)` is unsupported. -/
def sctExtend (_ : PrecertificateSignedCertificateTimestamps)
    (_ : List SignedCertificateTimestamp) :
    Except Err PrecertificateSignedCertificateTimestamps :=
  .error .notImplementedError

/-- `e.insert(i, x)` is unsupported. -/
def sctInsert (_ : PrecertificateSignedCertificateTimestamps) (_ : Int)
    (_ : SignedCertificateTimestamp) :
    Except Err PrecertificateSignedCertificateTimestamps :=
  .error .notImplementedError

/-- `e.pop(...)` is unsupported. -/
def sctPop (_ : PrecertificateSignedCertificateTimestamps) (_ : Option Int) :
    Except Err (SignedCertificateTimestamp ×
      PrecertificateSignedCertificateTimestamps) :=
  .error .notImplementedError

/-- `e.remove(x)` is unsupported. -/
def sctRemove (_ : PrecertificateSignedCertificateTimestamps)
    (_ : SignedCertificateTimestamp) :
    Except Err PrecertificateSignedCertificateTimestamps :=
  .error .notImplementedError

/-- `e[i] = x` is unsupported. -/
def sctSetitem (_ : PrecertificateSignedCertificateTimestamps) (_ : Int)
    (_ : SignedCertificateTimestamp) :
    Except Err PrecertificateSignedCertificateTimestamps :=
  .error .notImplementedError

/-- `e[i:j] = l` is unsupported. -/
def sctSetitemSlice (_ : PrecertificateSignedCertificateTimestamps) (_ _ : Int)
    (_ : List SignedCertificateTimestamp) :
    Except Err PrecertificateSignedCertificateTimestamps :=
  .error .notImplementedError

/-- `x in e` — supported read access. -/
def sctContains (e : PrecertificateSignedCertificateTimestamps)
    (x : SignedCertificateTimestamp) : Except Err Bool :=
  .ok (e.value.contains x)

/-- `len(e)` — supported read access. -/
def sctLen (e : PrecertificateSignedCertificateTimestamps) : Except Err Nat :=
  .ok e.value.length

/-- `e.count(x)` — supported read access. -/
def sctCount (e : PrecertificateSignedCertificateTimestamps)
    (x : SignedCertificateTimestamp) : Except Err Nat :=
  .ok (e.value.count x)

/-- `e[i]` — supported read access (single index). -/
def sctGetitem (e : PrecertificateSignedCertificateTimestamps) (i : Int) :
    Except Err SignedCertificateTimestamp :=
  pyIndex e.value i

/-- `e[i:j]` — supported read access (slice). -/
def sctGetitemSlice (e : PrecertificateSignedCertificateTimestamps) (i j : Int) :
    Except Err (List SignedCertificateTimestamp) :=
  .ok (pySliceGet e.value i j)

/-- Modelled from the spec: the read-only kind supports no construction
shape other than the native one — reconstruction from the serialized
mapping (whose value is a bare list of timestamp records) is as unsupported
as construction from a bare list and fails with `NotImplementedError`. -/
def sctFromDict (_ : CriticalField) (_ : List SignedCertificateTimestamp) :
    Except Err PrecertificateSignedCertificateTimestamps :=
  .error .notImplementedError

/-- `serialize()` of `PrecertificateSignedCertificateTimestamps`: the
critical flag and the timestamp records. -/
def sctSerialize (e : PrecertificateSignedCertificateTimestamps) :
    Bool × List SignedCertificateTimestamp :=
  (e.critical, e.value)

/-! ### AuthorityKeyIdentifier and SubjectKeyIdentifier -/

/-- `AuthorityKeyIdentifier`: its canonical value is the key-identifier
bytes, rendered and serialized as a colon-delimited hex string (which is the
form modelled here). -/
structure AuthorityKeyIdentifier where
  critical : Bool
  value : String
deriving DecidableEq

/-- `AuthorityKeyIdentifier` mapping constructor; `critical` defaults to
`false`. -/
def akiFromDict (cf : CriticalField) (v : String) :
    Except Err AuthorityKeyIdentifier := do
  let c ← resolveCritical false cf
  .ok ⟨c, v⟩

/-- `serialize()` of `AuthorityKeyIdentifier`. -/
def akiSerialize (e : AuthorityKeyIdentifier) : Bool × String :=
  (e.critical, e.value)

/-- `SubjectKeyIdentifier`: like `AuthorityKeyIdentifier`, a hex-rendered
key identifier. -/
structure SubjectKeyIdentifier where
  critical : Bool
  value : String
deriving DecidableEq

/-- `SubjectKeyIdentifier` mapping constructor; `critical` defaults to
`false`. -/
def skiFromDict (cf : CriticalField) (v : String) :
    Except Err SubjectKeyIdentifier := do
  let c ← resolveCritical false cf
  .ok ⟨c, v⟩

/-- `serialize()` of `SubjectKeyIdentifier`. -/
def skiSerialize (e : SubjectKeyIdentifier) : Bool × String :=
  (e.critical, e.value)

/-! ### NameConstraints -/

/-- `NameConstraints`: two lists of general names. -/
structure NameConstraints where
  critical : Bool
  permitted : List String
  excluded : List String
deriving DecidableEq

/-- `NameConstraints` mapping constructor; missing keys default to empty
lists and `critical` defaults to `false`. -/
def ncFromDict (cf : CriticalField) (permitted excluded : Option (List String)) :
    Except Err NameConstraints := do
  let c ← resolveCritical false cf
  .ok ⟨c, permitted.getD [], excluded.getD []⟩

/-- `serialize()` of `NameConstraints`. -/
def ncSerialize (e : NameConstraints) : Bool × List String × List String :=
  (e.critical, e.permitted, e.excluded)

/-! ### SubjectAlternativeName and IssuerAlternativeName -/

/-- `SubjectAlternativeName`: a list extension of general names, each held
in its prefixed string rendering. -/
structure SubjectAlternativeName where
  critical : Bool
  value : List String
deriving DecidableEq

/-- `SubjectAlternativeName` mapping constructor; `critical` defaults to
`false`. -/
def sanFromDict (cf : CriticalField) (v : List String) :
    Except Err SubjectAlternativeName := do
  let c ← resolveCritical false cf
  .ok ⟨c, v⟩

/-- `serialize()` of `SubjectAlternativeName`. -/
def sanSerialize (e : SubjectAlternativeName) : Bool × List String :=
  (e.critical, e.value)

/-- `IssuerAlternativeName`: a list extension of general names. -/
structure IssuerAlternativeName where
  critical : Bool
  value : List String
deriving DecidableEq

/-- `IssuerAlternativeName` mapping constructor; `critical` defaults to
`false`. -/
def ianFromDict (cf : CriticalField) (v : List String) :
    Except Err IssuerAlternativeName := do
  let c ← resolveCritical false cf
  .ok ⟨c, v⟩

/-- `serialize()` of `IssuerAlternativeName`. -/
def ianSerialize (e : IssuerAlternativeName) : Bool × List String :=
  (e.critical, e.value)

/-! ### DistributionPoint and CRLDistributionPoints -/

/-- One CRL distribution point: full name / relative name / issuer /
revocation-reason set.  Invariant: `full_name` and `relative_name` are
mutually exclusive. -/
structure DistributionPoint where
  full_name : Option (List String)
  relative_name : Option String
  crl_issuer : Option (List String)
  reasons : Option (List String)
deriving DecidableEq

/-- The serialized (mapping) shape of a distribution point.  A scalar string
supplied for `full_name`/`crl_issuer` at the raw-input boundary is promoted
to a one-element list before reaching this shape, so the serialized form
always carries lists. -/
structure SerializedDistributionPoint where
  full_name : Option (List String)
  relative_name : Option String
  crl_issuer : Option (List String)
  reasons : Option (List String)
deriving DecidableEq

/-- The mutual-exclusion invariant of a distribution point. -/
def dpValid (dp : DistributionPoint) : Bool :=
  !(dp.full_name.isSome && dp.relative_name.isSome)

/-- `DistributionPoint` mapping constructor: fails when both `full_name` and
`relative_name` are present (message as asserted by
`DistributionPointTestCase.test_init_errors`). -/
def dpFromDict (d : SerializedDistributionPoint) : Except Err DistributionPoint :=
  if d.full_name.isSome && d.relative_name.isSome then
    .error (.valueError "full_name and relative_name cannot both have a value")
  else .ok ⟨d.full_name, d.relative_name, d.crl_issuer, d.reasons⟩

/-- `serialize()` of a distribution point. -/
def dpSerialize (dp : DistributionPoint) : SerializedDistributionPoint :=
  ⟨dp.full_name, dp.relative_name, dp.crl_issuer, dp.reasons⟩

/-- Fallible elementwise normalization of a sequence (Python's per-element
parsing loop inside a list constructor). -/
def mapExcept {α β : Type} (f : α → Except Err β) : List α → Except Err (List β)
  | [] => .ok []
  | x :: xs => do
    let y ← f x
    let ys ← mapExcept f xs
    .ok (y :: ys)

/-- `CRLDistributionPoints`: a list extension of `DistributionPoint`. -/
structure CRLDistributionPoints where
  critical : Bool
  value : List DistributionPoint
deriving DecidableEq

/-- `CRLDistributionPoints` mapping constructor; every element goes through
the distribution-point parser; `critical` defaults to `false`. -/
def crldpFromDict (cf : CriticalField) (v : List SerializedDistributionPoint) :
    Except Err CRLDistributionPoints := do
  let dps ← mapExcept dpFromDict v
  let c ← resolveCritical false cf
  .ok ⟨c, dps⟩

/-- `serialize()` of `CRLDistributionPoints`. -/
def crldpSerialize (e : CRLDistributionPoints) :
    Bool × List SerializedDistributionPoint :=
  (e.critical, e.value.map dpSerialize)

/-! ### The serialize round trip across extension kinds

`AnyExt` gathers the modelled extension kinds; `SerializedExt` is the shape
of `serialize()` output (the canonical `critical`/`value` mapping, tagged by
kind), and `parseSerializedExt` re-runs the kind's mapping constructor on
it, exactly what `parse(serialize(x))` does. -/

/-- An extension value of any modelled kind.  The `knownValues` case carries
the concrete subtype's vocabulary (so it covers `TLSFeature`,
`ExtendedKeyUsage`, and the generic test subtype alike). -/
inductive AnyExt where
  | ext (e : Extension)
  | listExt (e : ListExtension)
  | knownValues (known : List String) (e : KnownValuesExtension)
  | keyUsage (e : KeyUsage)
  | basicConstraints (e : BasicConstraints)
  | ocspNoCheck (e : OCSPNoCheck)
  | precertPoison (e : PrecertPoison)
  | certificatePolicies (e : CertificatePolicies)
  | authorityInformationAccess (e : AuthorityInformationAccess)
  | authorityKeyIdentifier (e : AuthorityKeyIdentifier)
  | subjectKeyIdentifier (e : SubjectKeyIdentifier)
  | nameConstraints (e : NameConstraints)
  | subjectAlternativeName (e : SubjectAlternativeName)
  | issuerAlternativeName (e : IssuerAlternativeName)
  | crlDistributionPoints (e : CRLDistributionPoints)
  | precertificateSignedCertificateTimestamps
      (e : PrecertificateSignedCertificateTimestamps)
deriving DecidableEq

/-- The serialized mapping of any modelled kind. -/
inductive SerializedExt where
  | ext (critical : Bool) (value : String)
  | listExt (critical : Bool) (value : List String)
  | knownValues (known : List String) (critical : Bool) (value : List String)
  | keyUsage (critical : Bool) (value : List String)
  | basicConstraints (critical : Bool) (ca : Bool) (pathlen : Option Nat)
  | ocspNoCheck (critical : Bool)
  | precertPoison (critical : Bool)
  | certificatePolicies (critical : Bool) (value : List SerializedPolicyInformation)
  | authorityInformationAccess (critical : Bool) (issuers ocsp : List String)
  | authorityKeyIdentifier (critical : Bool) (value : String)
  | subjectKeyIdentifier (critical : Bool) (value : String)
  | nameConstraints (critical : Bool) (permitted excluded : List String)
  | subjectAlternativeName (critical : Bool) (value : List String)
  | issuerAlternativeName (critical : Bool) (value : List String)
  | crlDistributionPoints (critical : Bool)
      (value : List SerializedDistributionPoint)
  | precertificateSignedCertificateTimestamps (critical : Bool)
      (value : List SignedCertificateTimestamp)
deriving DecidableEq

/-- `serialize()` across kinds. -/
def serializeExt : AnyExt → SerializedExt
  | .ext e => .ext e.critical e.value
  | .listExt e => .listExt e.critical e.value
  | .knownValues known e => .knownValues known e.critical e.value
  | .keyUsage e => .keyUsage e.critical e.value
  | .basicConstraints e => .basicConstraints e.critical e.ca e.pathlen
  | .ocspNoCheck e => .ocspNoCheck e.critical
  | .precertPoison e => .precertPoison e.critical
  | .certificatePolicies e => .certificatePolicies e.critical (e.value.map piSerialize)
  | .authorityInformationAccess e =>
    .authorityInformationAccess e.critical e.issuers e.ocsp
  | .authorityKeyIdentifier e => .authorityKeyIdentifier e.critical e.value
  | .subjectKeyIdentifier e => .subjectKeyIdentifier e.critical e.value
  | .nameConstraints e => .nameConstraints e.critical e.permitted e.excluded
  | .subjectAlternativeName e => .subjectAlternativeName e.critical e.value
  | .issuerAlternativeName e => .issuerAlternativeName e.critical e.value
  | .crlDistributionPoints e =>
    .crlDistributionPoints e.critical (e.value.map dpSerialize)
  | .precertificateSignedCertificateTimestamps e =>
    .precertificateSignedCertificateTimestamps e.critical e.value

/-- Re-construct an extension from a serialized mapping: each kind's mapping
constructor applied to the mapping, with the serialized boolean in the
`critical` entry.  For the read-only
`PrecertificateSignedCertificateTimestamps` this construction shape is
unsupported and fails. -/
def parseSerializedExt : SerializedExt → Except Err AnyExt
  | .ext c v => (extFromDict (.boolean c) v).map .ext
  | .listExt c v => (listExtFromDict (.boolean c) v).map .listExt
  | .knownValues known c v =>
    (kvFromDict known (.boolean c) (.list v)).map (.knownValues known)
  | .keyUsage c v => (kuFromDict (.boolean c) (.list v)).map .keyUsage
  | .basicConstraints c ca pl => (bcFromDict (.boolean c) ca pl).map .basicConstraints
  | .ocspNoCheck c => (ocspFromDict (.boolean c)).map .ocspNoCheck
  | .precertPoison c => (ppFromDict (.boolean c)).map .precertPoison
  | .certificatePolicies c v => (cpFromDict (.boolean c) v).map .certificatePolicies
  | .authorityInformationAccess c iss oc =>
    (aiaFromDict (.boolean c) (some iss) (some oc)).map .authorityInformationAccess
  | .authorityKeyIdentifier c v =>
    (akiFromDict (.boolean c) v).map .authorityKeyIdentifier
  | .subjectKeyIdentifier c v =>
    (skiFromDict (.boolean c) v).map .subjectKeyIdentifier
  | .nameConstraints c p x =>
    (ncFromDict (.boolean c) (some p) (some x)).map .nameConstraints
  | .subjectAlternativeName c v =>
    (sanFromDict (.boolean c) v).map .subjectAlternativeName
  | .issuerAlternativeName c v =>
    (ianFromDict (.boolean c) v).map .issuerAlternativeName
  | .crlDistributionPoints c v =>
    (crldpFromDict (.boolean c) v).map .crlDistributionPoints
  | .precertificateSignedCertificateTimestamps c v =>
    (sctFromDict (.boolean c) v).map .precertificateSignedCertificateTimestamps

/-- The canonical-form invariant every successfully constructed instance
satisfies: known-values payloads stay inside their vocabulary, `KeyUsage`
contains `keyAgreement` whenever it contains `decipherOnly`,
`BasicConstraints` carries a pathlen only for a CA, `PrecertPoison` is
critical, and every distribution point keeps `full_name` and
`relative_name` mutually exclusive. -/
def validExt : AnyExt → Bool
  | .ext _ => true
  | .listExt _ => true
  | .knownValues known e => e.value.all (known.contains ·)
  | .keyUsage e =>
    e.value.all (keyUsageKnown.contains ·) &&
      (!e.value.contains "decipherOnly" || e.value.contains "keyAgreement")
  | .basicConstraints e => !e.pathlen.isSome || e.ca
  | .ocspNoCheck _ => true
  | .precertPoison e => e.critical
  | .certificatePolicies _ => true
  | .authorityInformationAccess _ => true
  | .authorityKeyIdentifier _ => true
  | .subjectKeyIdentifier _ => true
  | .nameConstraints _ => true
  | .subjectAlternativeName _ => true
  | .issuerAlternativeName _ => true
  | .crlDistributionPoints e => e.value.all dpValid
  | .precertificateSignedCertificateTimestamps _ => true

/-- The one kind whose instances cannot be re-constructed from their
serialized mapping: the read-only
`PrecertificateSignedCertificateTimestamps`. -/
def readOnlyKind : AnyExt → Bool
  | .precertificateSignedCertificateTimestamps _ => true
  | _ => false

/-! ### Helper lemmas -/

/-- A token list inside the vocabulary passes the unknown-values check
unchanged. -/
theorem checkKnown_of_all {known toks : List String}
    (h : toks.all (known.contains ·) = true) : checkKnown known toks = .ok toks := by
  have hf : toks.filter (fun t => !known.contains t) = [] := by
    rw [List.filter_eq_nil_iff]
    intro a ha
    have := List.all_eq_true.mp h a ha
    simp_all
  unfold checkKnown unknownValues
  rw [hf]
  rfl

/-- The implied-value fix of `KeyUsage` is the identity on canonical values
(those already containing `keyAgreement` whenever they contain
`decipherOnly`). -/
theorem kuImplied_eq_self {v : List String}
    (h : (!v.contains "decipherOnly" || v.contains "keyAgreement") = true) :
    kuImplied v = v := by
  unfold kuImplied
  cases hd : v.contains "decipherOnly" <;> cases hk : v.contains "keyAgreement" <;>
    simp_all

/-- The implied-value fix always yields `keyAgreement` alongside
`decipherOnly`. -/
theorem kuImplied_contains {v : List String}
    (h : (kuImplied v).contains "decipherOnly" = true) :
    (kuImplied v).contains "keyAgreement" = true := by
  unfold kuImplied at h ⊢
  cases hd : v.contains "decipherOnly" <;> cases hk : v.contains "keyAgreement" <;>
    simp_all

/-- A consistent `(ca, pathlen)` pair passes the consistency check. -/
theorem bcTestValue_ok {ca : Bool} {pl : Option Nat}
    (h : (!pl.isSome || ca) = true) : bcTestValue ca pl = .ok () := by
  unfold bcTestValue
  cases hp : pl.isSome <;> cases hca : ca <;> simp_all

/-- Mapping a one-sided inverse over a mapped list restores it. -/
theorem map_round {α β : Type} {f : α → β} {g : β → α}
    (hg : ∀ a, g (f a) = a) : ∀ l : List α, (l.map f).map g = l := by
  intro l
  induction l with
  | nil => rfl
  | cons a t ih => simp [hg a, ih]

/-- Qualifier serialization round-trips. -/
theorem parseQualifier_serializeQualifier (q : PolicyQualifier) :
    parseQualifier (serializeQualifier q) = q := by
  cases q with
  | text s => rfl
  | userNotice et nr =>
    cases nr with
    | none => rfl
    | some r => rfl

/-- Policy-information serialization round-trips. -/
theorem piFromDict_piSerialize (pi : PolicyInformation) :
    piFromDict (piSerialize pi) = pi := by
  obtain ⟨oid, qs⟩ := pi
  unfold piFromDict piSerialize
  cases qs with
  | none => rfl
  | some l =>
    simp [map_round parseQualifier_serializeQualifier l]

/-- A distribution point satisfying the mutual-exclusion invariant
round-trips through serialization. -/
theorem dpFromDict_dpSerialize (dp : DistributionPoint) (h : dpValid dp = true) :
    dpFromDict (dpSerialize dp) = .ok dp := by
  obtain ⟨fn, rn, ci, rs⟩ := dp
  unfold dpValid at h
  simp only [Bool.not_eq_eq_eq_not, Bool.not_true] at h
  simp [dpFromDict, dpSerialize, h]

/-- A list of valid distribution points round-trips elementwise. -/
theorem mapExcept_dp_round (l : List DistributionPoint)
    (h : l.all dpValid = true) :
    mapExcept dpFromDict (l.map dpSerialize) = .ok l := by
  induction l with
  | nil => rfl
  | cons dp t ih =>
    rw [List.all_cons, Bool.and_eq_true] at h
    simp [mapExcept, dpFromDict_dpSerialize dp h.1, ih h.2, Bind.bind,
      Except.bind]

/-! ### Claim theorems -/

/-- Claim C1 (corrected/amended): for every extension kind except the
read-only `PrecertificateSignedCertificateTimestamps`, and every valid
(canonical) instance `x`, re-constructing from `x.serialize()` yields `x`
back: `parse(serialize(x)) = ok x` (and the layer's equality relations are
reflexive, so `parse(serialize(x)) == x`).  For
`PrecertificateSignedCertificateTimestamps` — constructible only from the
native shape — re-construction from the serialized mapping always fails
with `NotImplementedError`, so the round trip does not hold there. -/
theorem serialize_round_trip_except_read_only :
    (∀ x : AnyExt, validExt x = true → readOnlyKind x = false →
      parseSerializedExt (serializeExt x) = .ok x) ∧
    (∀ x : AnyExt, readOnlyKind x = true →
      parseSerializedExt (serializeExt x) = .error .notImplementedError) := by
  constructor
  · intro x h hro
    cases x with
    | ext e =>
      simp [serializeExt, parseSerializedExt, extFromDict, resolveCritical,
        Except.map, bind, Except.bind]
    | listExt e =>
      simp [serializeExt, parseSerializedExt, listExtFromDict, resolveCritical,
        Except.map, bind, Except.bind]
    | knownValues known e =>
      simp only [validExt] at h
      simp [serializeExt, parseSerializedExt, kvFromDict, kvFromList,
        checkKnown_of_all h, resolveCritical, Except.map, bind, Except.bind]
    | keyUsage e =>
      simp only [validExt, Bool.and_eq_true] at h
      simp [serializeExt, parseSerializedExt, kuFromDict, kvFromDict,
        kvFromList, checkKnown_of_all h.1, resolveCritical, Except.map, bind,
        Except.bind, kuImplied_eq_self h.2]
    | basicConstraints e =>
      simp only [validExt] at h
      simp [serializeExt, parseSerializedExt, bcFromDict, bcTestValue_ok h,
        resolveCritical, Except.map, bind, Except.bind]
    | ocspNoCheck e =>
      simp [serializeExt, parseSerializedExt, ocspFromDict, resolveCritical,
        Except.map]
    | precertPoison e =>
      obtain ⟨c⟩ := e
      simp only [validExt] at h
      simp [serializeExt, parseSerializedExt, ppFromDict, resolveCritical,
        Except.map, bind, Except.bind, h]
    | certificatePolicies e =>
      simp [serializeExt, parseSerializedExt, cpFromDict, resolveCritical,
        Except.map, bind, Except.bind, map_round piFromDict_piSerialize e.value]
    | authorityInformationAccess e =>
      simp [serializeExt, parseSerializedExt, aiaFromDict, resolveCritical,
        Except.map, bind, Except.bind]
    | authorityKeyIdentifier e =>
      simp [serializeExt, parseSerializedExt, akiFromDict, resolveCritical,
        Except.map, bind, Except.bind]
    | subjectKeyIdentifier e =>
      simp [serializeExt, parseSerializedExt, skiFromDict, resolveCritical,
        Except.map, bind, Except.bind]
    | nameConstraints e =>
      simp [serializeExt, parseSerializedExt, ncFromDict, resolveCritical,
        Except.map, bind, Except.bind]
    | subjectAlternativeName e =>
      simp [serializeExt, parseSerializedExt, sanFromDict, resolveCritical,
        Except.map, bind, Except.bind]
    | issuerAlternativeName e =>
      simp [serializeExt, parseSerializedExt, ianFromDict, resolveCritical,
        Except.map, bind, Except.bind]
    | crlDistributionPoints e =>
      simp only [validExt] at h
      simp [serializeExt, parseSerializedExt, crldpFromDict,
        mapExcept_dp_round e.value h, resolveCritical, Except.map, bind,
        Except.bind]
    | precertificateSignedCertificateTimestamps e =>
      simp [readOnlyKind] at hro
  · intro x hro
    cases x <;> simp [readOnlyKind] at hro
    simp [serializeExt, parseSerializedExt, sctFromDict, Except.map]

/-- Witness for C1 (amended) at concrete instances: a critical CA basic
constraint with a pathlen, a certificate-policies extension holding a
user-notice qualifier, a CRL-distribution-points extension, and a concrete
timestamps instance for the read-only conjunct. -/
theorem serialize_round_trip_except_read_only_witness :
    validExt (.basicConstraints ⟨true, true, some 3⟩) = true ∧
    parseSerializedExt (serializeExt (.basicConstraints ⟨true, true, some 3⟩))
      = .ok (.basicConstraints ⟨true, true, some 3⟩) ∧
    validExt (.certificatePolicies ⟨false, [⟨some "2.5.29.32.0",
      some [.text "text4",
        .userNotice (some "text5") (some ⟨"text6", [1, 2, 3]⟩)]⟩]⟩) = true ∧
    parseSerializedExt (serializeExt (.certificatePolicies ⟨false,
      [⟨some "2.5.29.32.0", some [.text "text4",
        .userNotice (some "text5") (some ⟨"text6", [1, 2, 3]⟩)]⟩]⟩))
      = .ok (.certificatePolicies ⟨false, [⟨some "2.5.29.32.0",
        some [.text "text4",
          .userNotice (some "text5") (some ⟨"text6", [1, 2, 3]⟩)]⟩]⟩) ∧
    validExt (.crlDistributionPoints ⟨false,
      [⟨some ["http://ca.example.com/crl"], none, none,
        some ["key_compromise"]⟩]⟩) = true ∧
    parseSerializedExt (serializeExt (.crlDistributionPoints ⟨false,
      [⟨some ["http://ca.example.com/crl"], none, none,
        some ["key_compromise"]⟩]⟩))
      = .ok (.crlDistributionPoints ⟨false,
        [⟨some ["http://ca.example.com/crl"], none, none,
          some ["key_compromise"]⟩]⟩) ∧
    parseSerializedExt (serializeExt (.precertificateSignedCertificateTimestamps
      ⟨false, [⟨"v1", "AA:BB", "2019-01-01", "pre-certificate"⟩]⟩))
      = .error .notImplementedError :=
  ⟨by decide,
    serialize_round_trip_except_read_only.1 _ (by decide) (by decide),
    by decide,
    serialize_round_trip_except_read_only.1 _ (by decide) (by decide),
    by decide,
    serialize_round_trip_except_read_only.1 _ (by decide) (by decide),
    serialize_round_trip_except_read_only.2 _ (by decide)⟩

/-- Counterexample to C1 as stated: a valid
`PrecertificateSignedCertificateTimestamps` instance (built from the native
shape, the only supported construction) whose re-construction from
`serialize()` fails with `NotImplementedError` instead of yielding an equal
instance. -/
theorem sct_round_trip_counterexample :
    validExt (.precertificateSignedCertificateTimestamps (sctFromExtension
      false [⟨"v1", "AA:BB", "2019-01-01", "pre-certificate"⟩])) = true ∧
    parseSerializedExt (serializeExt
      (.precertificateSignedCertificateTimestamps (sctFromExtension false
        [⟨"v1", "AA:BB", "2019-01-01", "pre-certificate"⟩])))
      = .error .notImplementedError ∧
    (Except.error Err.notImplementedError : Except Err AnyExt)
      ≠ .ok (.precertificateSignedCertificateTimestamps (sctFromExtension
        false [⟨"v1", "AA:BB", "2019-01-01", "pre-certificate"⟩])) := by
  exact ⟨by decide, by decide, by decide⟩

/-- Claim C3 (corrected/amended): `serialize()` of a known-values extension
lists the stored values in construction order — exactly the token sequence
supplied (after the scalar-string promotion of the mapping form) — rather
than in sorted order; differently-ordered constructions therefore serialize
differently, although they compare equal. -/
theorem kv_serialize_insertion_order :
    (∀ known cf toks e, kvFromList known cf toks = .ok e →
      kvSerialize e = (e.critical, toks)) ∧
    (∀ known s e, kvFromStr known s = .ok e →
      kvSerialize e = (e.critical, kvTokens (stripCriticalTag s).2)) := by
  have hck : ∀ known toks toks2, checkKnown known toks = .ok toks2 → toks2 = toks := by
    intro known toks toks2 hc
    unfold checkKnown at hc
    rcases hm : unknownValues known toks with _ | ⟨d, ds⟩ <;> rw [hm] at hc
    · cases hc; rfl
    · cases hc
  constructor
  · intro known cf toks e h
    unfold kvFromList at h
    rcases hc : checkKnown known toks with err | toks2 <;> rw [hc] at h
    · exact absurd h (by simp [Bind.bind, Except.bind])
    · rcases hr : resolveCritical false cf with err | c <;>
        simp [Bind.bind, Except.bind, hr] at h
      rw [← h, hck known toks toks2 hc]
      rfl
  · intro known s e h
    unfold kvFromStr at h
    rcases hc : checkKnown known (kvTokens (stripCriticalTag s).2) with err | toks2 <;>
      rw [hc] at h
    · exact absurd h (by simp [Bind.bind, Except.bind])
    · simp [Bind.bind, Except.bind] at h
      rw [← h, hck known _ toks2 hc]
      rfl

/-- Witness for C3 (amended) at a concrete input. -/
theorem kv_serialize_insertion_order_witness :
    kvFromStr tlsFeatureKnown "OCSPMustStaple,MultipleCertStatusRequest"
      = .ok ⟨false, ["OCSPMustStaple", "MultipleCertStatusRequest"]⟩ ∧
    kvSerialize ⟨false, ["OCSPMustStaple", "MultipleCertStatusRequest"]⟩
      = (false, kvTokens (stripCriticalTag
          "OCSPMustStaple,MultipleCertStatusRequest").2) :=
  ⟨by decide,
    kv_serialize_insertion_order.2 tlsFeatureKnown
      "OCSPMustStaple,MultipleCertStatusRequest" _ (by decide)⟩

/-- Counterexample to C3 as stated: `TLSFeature` built from
`"OCSPMustStaple,MultipleCertStatusRequest"` serializes its values in that
supplied order, which is not the sorted order, and the reversed construction
serializes in the reversed order — so serialization is neither sorted nor
independent of construction order. -/
theorem kv_serialize_sorted_counterexample :
    (kvFromStr tlsFeatureKnown "OCSPMustStaple,MultipleCertStatusRequest").map
        kvSerialize
      = .ok (false, ["OCSPMustStaple", "MultipleCertStatusRequest"]) ∧
    (kvFromStr tlsFeatureKnown "MultipleCertStatusRequest,OCSPMustStaple").map
        kvSerialize
      = .ok (false, ["MultipleCertStatusRequest", "OCSPMustStaple"]) ∧
    sortStrs ["OCSPMustStaple", "MultipleCertStatusRequest"]
      = ["MultipleCertStatusRequest", "OCSPMustStaple"] ∧
    (["OCSPMustStaple", "MultipleCertStatusRequest"] : List String)
      ≠ ["MultipleCertStatusRequest", "OCSPMustStaple"] := by
  exact ⟨by decide, by decide, by decide, by decide⟩

/-- Claim C4: two known-values instances of one subtype holding the same set
of tokens and the same critical flag — regardless of the order the tokens
were supplied or stored in — are equal, and their hashes (computed over the
value set plus the critical flag) are equal. -/
theorem kv_eq_hash_order_independent (known : List String)
    (e1 e2 : KnownValuesExtension) (hv : listSetEq e1.value e2.value = true)
    (hc : e1.critical = e2.critical) :
    kvEq e1 e2 = true ∧ kvHashKey known e1 = kvHashKey known e2 := by
  constructor
  · simp [kvEq, hc, hv]
  · unfold kvHashKey
    rw [hc]
    have hmem : ∀ k, (e1.value.contains k) = (e2.value.contains k) := by
      unfold listSetEq at hv
      rw [Bool.and_eq_true] at hv
      rcases hv with ⟨h1, h2⟩
      intro k
      cases hk : e2.value.contains k with
      | true =>
        have : k ∈ e2.value := by simpa using hk
        have := List.all_eq_true.mp h2 k this
        simpa using this
      | false =>
        cases hk1 : e1.value.contains k with
        | false => rfl
        | true =>
          have hmem1 : k ∈ e1.value := by simpa using hk1
          have hk2 : k ∈ e2.value := by
            simpa using List.all_eq_true.mp h1 k hmem1
          have : ¬ k ∈ e2.value := by simpa using hk
          exact absurd hk2 this
    rw [List.filter_congr (fun k _ => hmem k)]

/-- Witness for C4: the `TLSFeature` instances the spec names, built from
the two comma-separated orders of the same two tokens. -/
theorem kv_eq_hash_order_independent_witness :
    kvFromStr tlsFeatureKnown "OCSPMustStaple,MultipleCertStatusRequest"
      = .ok ⟨false, ["OCSPMustStaple", "MultipleCertStatusRequest"]⟩ ∧
    kvFromStr tlsFeatureKnown "MultipleCertStatusRequest,OCSPMustStaple"
      = .ok ⟨false, ["MultipleCertStatusRequest", "OCSPMustStaple"]⟩ ∧
    kvEq ⟨false, ["OCSPMustStaple", "MultipleCertStatusRequest"]⟩
      ⟨false, ["MultipleCertStatusRequest", "OCSPMustStaple"]⟩ = true ∧
    kvHashKey tlsFeatureKnown
        ⟨false, ["OCSPMustStaple", "MultipleCertStatusRequest"]⟩
      = kvHashKey tlsFeatureKnown
        ⟨false, ["MultipleCertStatusRequest", "OCSPMustStaple"]⟩ :=
  ⟨by decide, by decide,
    (kv_eq_hash_order_independent tlsFeatureKnown
      ⟨false, ["OCSPMustStaple", "MultipleCertStatusRequest"]⟩
      ⟨false, ["MultipleCertStatusRequest", "OCSPMustStaple"]⟩
      (by decide) (by decide)).1,
    (kv_eq_hash_order_independent tlsFeatureKnown
      ⟨false, ["OCSPMustStaple", "MultipleCertStatusRequest"]⟩
      ⟨false, ["MultipleCertStatusRequest", "OCSPMustStaple"]⟩
      (by decide) (by decide)).2⟩

/-- Claim C5: `BasicConstraints` construction fails with the
inconsistent-basic-constraints error whenever a pathlen is specified while
CA is false — for the mapping form unconditionally, and for the string
grammar no successful parse violates the rule; in particular
`BasicConstraints("CA:FALSE, pathlen=3")` fails with exactly that error. -/
theorem bc_pathlen_requires_ca :
    (∀ cf n, bcFromDict cf false (some n)
      = .error (.valueError "pathlen must be None when ca is False")) ∧
    bcFromStr "CA:FALSE, pathlen=3"
      = .error (.valueError "pathlen must be None when ca is False") ∧
    (∀ s e, bcFromStr s = .ok e → e.pathlen.isSome = true → e.ca = true) := by
  refine ⟨fun cf n => rfl, by decide, ?_⟩
  intro s e h hp
  unfold bcFromStr at h
  rcases hcore : bcCore (stripCriticalTag s).2.data with err | v <;> rw [hcore] at h
  · exact absurd h (by simp [Bind.bind, Except.bind])
  · rcases ht : bcTestValue v.1 v.2 with err | u <;>
      simp [Bind.bind, Except.bind, ht] at h
    unfold bcTestValue at ht
    rcases hs : v.2.isSome <;> rcases hca : v.1 <;> rw [hs, hca] at ht <;>
      simp at ht <;> rw [← h] at hp ⊢ <;> simp_all

/-- Witness for C5: a successful parse of a critical CA extension with a
pathlen, on which the string-grammar conjunct applies. -/
theorem bc_pathlen_requires_ca_witness :
    bcFromStr "critical,CA:TRUE,pathlen=3" = .ok ⟨true, true, some 3⟩ ∧
    (⟨true, true, some 3⟩ : BasicConstraints).ca = true :=
  ⟨by decide,
    bc_pathlen_requires_ca.2.2 "critical,CA:TRUE,pathlen=3" _ (by decide)
      (by decide)⟩

/-- Claim C6: `KeyUsage` auto-implies `keyAgreement` whenever `decipherOnly`
is requested, through every construction shape; in particular
`KeyUsage("decipherOnly")` normalizes to exactly
`["decipherOnly", "keyAgreement"]`. -/
theorem key_usage_decipher_implies_key_agreement :
    (∀ s e, kuFromStr s = .ok e → e.value.contains "decipherOnly" = true →
      e.value.contains "keyAgreement" = true) ∧
    (∀ cf v e, kuFromDict cf v = .ok e → e.value.contains "decipherOnly" = true →
      e.value.contains "keyAgreement" = true) ∧
    (∀ cf toks e, kuFromList cf toks = .ok e →
      e.value.contains "decipherOnly" = true →
      e.value.contains "keyAgreement" = true) ∧
    kuFromStr "decipherOnly" = .ok ⟨false, ["decipherOnly", "keyAgreement"]⟩ := by
  refine ⟨?_, ?_, ?_, by decide⟩
  · intro s e h
    unfold kuFromStr at h
    rcases hk : kvFromStr keyUsageKnown s with err | kv <;>
      simp [Except.map, hk] at h
    rw [← h]
    exact kuImplied_contains
  · intro cf v e h
    unfold kuFromDict at h
    rcases hk : kvFromDict keyUsageKnown cf v with err | kv <;>
      simp [Except.map, hk] at h
    rw [← h]
    exact kuImplied_contains
  · intro cf toks e h
    unfold kuFromList at h
    rcases hk : kvFromList keyUsageKnown cf toks with err | kv <;>
      simp [Except.map, hk] at h
    rw [← h]
    exact kuImplied_contains

/-- Witness for C6: the string form of the spec's example. -/
theorem key_usage_decipher_implies_key_agreement_witness :
    kuFromStr "decipherOnly" = .ok ⟨false, ["decipherOnly", "keyAgreement"]⟩ ∧
    (⟨false, ["decipherOnly", "keyAgreement"]⟩ : KeyUsage).value.contains
      "keyAgreement" = true :=
  ⟨by decide,
    key_usage_decipher_implies_key_agreement.1 "decipherOnly" _ (by decide)
      (by decide)⟩

/-- Out-of-range single-index access (Python index semantics: negative
indices count from the end) fails with the `IndexError`. -/
theorem pyIndex_out_of_range {α : Type} (l : List α) (i : Int)
    (h : i < -(l.length : Int) ∨ (l.length : Int) ≤ i) :
    pyIndex l i = .error (.indexError "list index out of range") := by
  unfold pyIndex
  rcases h with h | h
  · have hi : i < 0 := by omega
    have hj : ¬(0 : Int) ≤ i + l.length := by omega
    simp [hi, hj]
  · have hi : ¬i < 0 := by omega
    have hj : (0 : Int) ≤ i := by omega
    have hn : l.length ≤ i.toNat := by omega
    simp [hi, hj, List.getElem?_eq_none hn]

/-- In-range single-index access succeeds. -/
theorem pyIndex_in_range {α : Type} (l : List α) (i : Int)
    (h0 : 0 ≤ i) (hl : i < (l.length : Int)) :
    ∃ v, pyIndex l i = .ok v := by
  unfold pyIndex
  have hi : ¬i < 0 := by omega
  have hn : i.toNat < l.length := by omega
  rcases hg : l[i.toNat]? with _ | v
  · rw [List.getElem?_eq_none_iff] at hg
    omega
  · exact ⟨v, by simp [hi, h0, hg]⟩

/-- Claim C7 (amended): on the list extensions and on `PolicyInformation`'s
qualifier list, out-of-range single-index access fails with `IndexError`
("list index out of range"), popping from an empty sequence fails with
`IndexError` ("pop from empty list") — not `ValueError` — and removing an
absent element fails with `ValueError` ("list.remove(x): x not in list"). -/
theorem list_ops_error_classes :
    (∀ (e : ListExtension) (i : Int),
      (i < -(e.value.length : Int) ∨ (e.value.length : Int) ≤ i) →
      listExtGetitem e i = .error (.indexError "list index out of range")) ∧
    (∀ e : ListExtension, e.value = [] →
      listExtPop e none = .error (.indexError "pop from empty list")) ∧
    (∀ (e : ListExtension) x, e.value.contains x = false →
      listExtRemove e x = .error (.valueError "list.remove(x): x not in list")) ∧
    (∀ (pi : PolicyInformation) (i : Int),
      (i < -((piQualifiers pi).length : Int) ∨ ((piQualifiers pi).length : Int) ≤ i) →
      piGetitem pi i = .error (.indexError "list index out of range")) ∧
    (∀ pi : PolicyInformation, piQualifiers pi = [] →
      piPop pi none = .error (.indexError "pop from empty list")) ∧
    (∀ (pi : PolicyInformation) q, (piQualifiers pi).contains (parseQualifier q) = false →
      piRemove pi q = .error (.valueError "list.remove(x): x not in list")) := by
  refine ⟨?_, ?_, ?_, ?_, ?_, ?_⟩
  · intro e i h
    unfold listExtGetitem
    rw [pyIndex_out_of_range e.value i h]
  · intro e h
    unfold listExtPop
    rw [h]
    rfl
  · intro e x h
    unfold listExtRemove pyRemove
    rw [h]
    rfl
  · intro pi i h
    unfold piGetitem
    rw [pyIndex_out_of_range (piQualifiers pi) i h]
    rfl
  · intro pi h
    unfold piPop
    rw [h]
    rfl
  · intro pi q h
    unfold piRemove pyRemove
    rw [h]
    rfl

/-- Witness for C7 at concrete inputs: a one-element list extension indexed
past its end, popped empty extensions, and removals of absent elements. -/
theorem list_ops_error_classes_witness :
    listExtGetitem ⟨false, ["foo"]⟩ 1
      = .error (.indexError "list index out of range") ∧
    listExtPop ⟨false, []⟩ none = .error (.indexError "pop from empty list") ∧
    listExtRemove ⟨false, ["bla"]⟩ "bar"
      = .error (.valueError "list.remove(x): x not in list") ∧
    piGetitem ⟨some "2.5.29.32.0", none⟩ 0
      = .error (.indexError "list index out of range") ∧
    piPop ⟨some "2.5.29.32.0", none⟩ none
      = .error (.indexError "pop from empty list") ∧
    piRemove ⟨some "2.5.29.32.0", none⟩ (.str "text3")
      = .error (.valueError "list.remove(x): x not in list") :=
  ⟨list_ops_error_classes.1 ⟨false, ["foo"]⟩ 1 (by decide),
    list_ops_error_classes.2.1 ⟨false, []⟩ (by decide),
    list_ops_error_classes.2.2.1 ⟨false, ["bla"]⟩ "bar" (by decide),
    list_ops_error_classes.2.2.2.1 ⟨some "2.5.29.32.0", none⟩ 0 (by decide),
    list_ops_error_classes.2.2.2.2.1 ⟨some "2.5.29.32.0", none⟩ (by decide),
    list_ops_error_classes.2.2.2.2.2 ⟨some "2.5.29.32.0", none⟩ (.str "text3")
      (by decide)⟩

/-- Counterexample to C7 as stated: popping from an empty qualifier list
fails with `IndexError` ("pop from empty list"), which is not a
`ValueError` — the claim assigns this failure to `ValueError`. -/
theorem pop_empty_error_class_counterexample :
    piPop ⟨some "2.5.29.32.0", none⟩ none
      = .error (.indexError "pop from empty list") ∧
    isValueErrorResult
      (piPop (⟨some "2.5.29.32.0", none⟩ : PolicyInformation) none) = false := by
  exact ⟨rfl, rfl⟩

/-- Claim C8: `PrecertificateSignedCertificateTimestamps` is read-only:
delete-by-index, `extend`, `insert`, `pop`, `remove`, single-index and slice
assignment, and construction from a bare list all fail with the
not-implemented error, while `contains`, single-index access (in range),
slice access, `len` and `count` succeed. -/
theorem sct_read_only :
    (∀ e i, sctDelitem e i = .error .notImplementedError) ∧
    (∀ e l, sctExtend e l = .error .notImplementedError) ∧
    (∀ e i x, sctInsert e i x = .error .notImplementedError) ∧
    (∀ e i, sctPop e i = .error .notImplementedError) ∧
    (∀ e x, sctRemove e x = .error .notImplementedError) ∧
    (∀ e i x, sctSetitem e i x = .error .notImplementedError) ∧
    (∀ e i j l, sctSetitemSlice e i j l = .error .notImplementedError) ∧
    (∀ l, sctFromList l = .error .notImplementedError) ∧
    (∀ e x, sctContains e x = .ok (e.value.contains x)) ∧
    (∀ e, sctLen e = .ok e.value.length) ∧
    (∀ e x, sctCount e x = .ok (e.value.count x)) ∧
    (∀ e i, 0 ≤ i → i < (e.value.length : Int) → ∃ v, sctGetitem e i = .ok v) ∧
    (∀ e i j, sctGetitemSlice e i j = .ok (pySliceGet e.value i j)) := by
  refine ⟨fun e i => rfl, fun e l => rfl, fun e i x => rfl, fun e i => rfl,
    fun e x => rfl, fun e i x => rfl, fun e i j l => rfl, fun l => rfl,
    fun e x => rfl, fun e => rfl, fun e x => rfl, ?_, fun e i j => rfl⟩
  intro e i h0 hl
  exact pyIndex_in_range e.value i h0 hl

/-- Witness for C8 at a concrete two-entry instance built from the native
shape. -/
theorem sct_read_only_witness :
    sctPop (sctFromExtension false
        [⟨"v1", "AA:BB", "2019-01-01", "pre-certificate"⟩,
         ⟨"v1", "CC:DD", "2019-02-02", "pre-certificate"⟩]) none
      = .error .notImplementedError ∧
    sctFromList [⟨"v1", "AA:BB", "2019-01-01", "pre-certificate"⟩]
      = .error .notImplementedError ∧
    sctLen (sctFromExtension false
        [⟨"v1", "AA:BB", "2019-01-01", "pre-certificate"⟩,
         ⟨"v1", "CC:DD", "2019-02-02", "pre-certificate"⟩]) = .ok 2 ∧
    (∃ v, sctGetitem (sctFromExtension false
        [⟨"v1", "AA:BB", "2019-01-01", "pre-certificate"⟩,
         ⟨"v1", "CC:DD", "2019-02-02", "pre-certificate"⟩]) 1 = .ok v) :=
  ⟨sct_read_only.2.2.2.1 _ none,
    sct_read_only.2.2.2.2.2.2.2.1 _,
    sct_read_only.2.2.2.2.2.2.2.2.2.1 _,
    sct_read_only.2.2.2.2.2.2.2.2.2.2.2.1 _ 1 (by decide) (by decide)⟩

/-- Claim C9: every successfully constructed `PrecertPoison` is critical;
an input explicitly marked non-critical — mapping or native — fails with the
dedicated always-critical error, and a mapping without a `critical` key
defaults to critical for this kind. -/
theorem precert_poison_always_critical :
    (∀ cf e, ppFromDict cf = .ok e → e.critical = true) ∧
    (∀ c e, ppFromExtension c = .ok e → e.critical = true) ∧
    ppFromDict (.boolean false) = .error precertPoisonErr ∧
    ppFromExtension false = .error precertPoisonErr ∧
    ppFromDict .absent = .ok ⟨true⟩ := by
  refine ⟨?_, ?_, rfl, rfl, rfl⟩
  · intro cf e h
    cases cf with
    | absent => cases h; rfl
    | boolean b => cases b <;> cases h; rfl
    | invalid shown => cases h
  · intro c e h
    cases c <;> cases h
    rfl

/-- Witness for C9: the default-critical mapping construction. -/
theorem precert_poison_always_critical_witness :
    ppFromDict .absent = .ok ⟨true⟩ ∧
    (⟨true⟩ : PrecertPoison).critical = true :=
  ⟨by decide, precert_poison_always_critical.1 .absent ⟨true⟩ (by decide)⟩

/-- Claim C10: `count` on a known-values extension normalizes its argument
first, so a token outside the vocabulary fails with the singular
unknown-value error instead of returning 0. -/
theorem kv_count_unknown_value (known : List String)
    (e : KnownValuesExtension) (t : String) (h : known.contains t = false) :
    kvCount known e t = .error (.valueError ("Unknown value: " ++ t)) := by
  unfold kvCount kvParseValue
  rw [h]
  rfl

/-- Witness for C10: `TLSFeature("critical,OCSPMustStaple").count("foo")`. -/
theorem kv_count_unknown_value_witness :
    kvFromStr tlsFeatureKnown "critical,OCSPMustStaple"
      = .ok ⟨true, ["OCSPMustStaple"]⟩ ∧
    kvCount tlsFeatureKnown ⟨true, ["OCSPMustStaple"]⟩ "foo"
      = .error (.valueError "Unknown value: foo") :=
  ⟨by decide,
    kv_count_unknown_value tlsFeatureKnown ⟨true, ["OCSPMustStaple"]⟩ "foo"
      (by decide)⟩

end DjangoCA
